import Mathlib

/-!
Shallow embedding of the core of `app.py` (SpaceTraders Control Center):
the HTTP client (`STClient.request`, `STClient._respect_rate`), the
utility functions (`backoff`, `normalize_symbol`,
`system_symbol_from_waypoint`), the read accessors with validation
(`api_market` / `api_shipyard`), the navigate fallback (`api_nav`), the
pagination aggregator (`fetch_system_waypoints`), the logistics
summarizer (`logistic_summary`) and the Streamlit button handlers that
follow each command accessor.

Pure Python functions become Lean functions; the network is passed in
explicitly as an oracle (attempt number / page number / request body to
response); sleeps are recorded as rational durations instead of being
performed; floating point distance computation (`waypoint_distance`,
which uses `math.hypot`) is abstracted as a parameter, since no claim
here depends on the distance values.
-/

set_option autoImplicit false

namespace SpaceTraders

/-! ## String utilities -/

/-- Substring test on character lists: does `n` occur contiguously in `h`?
Mirrors Python's `needle in haystack` for `str`. -/
def listContainsSub : List Char → List Char → Bool
  | [], n => n.isEmpty
  | h@(_ :: t), n => n.isPrefixOf h || listContainsSub t n

/-- Python's substring containment `needle in haystack`. -/
def strContainsSub (hay needle : String) : Bool :=
  listContainsSub hay.data needle.data

/-- Python `str.strip()`: drop whitespace from both ends.  (Defined on
character lists; the core `String.trim` is extensionally the same on
ASCII but is not kernel-reducible.) -/
def pyStrip (s : List Char) : List Char :=
  ((s.dropWhile Char.isWhitespace).reverse.dropWhile Char.isWhitespace).reverse

/-- Python `str.upper()` (ASCII). -/
def pyUpper (s : String) : String :=
  String.mk (s.data.map Char.toUpper)

/-- Python `str.split(sep)` for a single-character separator, on
character lists: every occurrence of `sep` ends a field, so the result
is always nonempty and `"".split("-") == [""]`. -/
def splitOnChar (sep : Char) : List Char → List (List Char)
  | [] => [[]]
  | c :: rest =>
    let r := splitOnChar sep rest
    if c = sep then [] :: r
    else
      match r with
      | [] => [[c]]
      | h :: t => (c :: h) :: t

/-- `symbol.split("-")` as a list of strings. -/
def pySplitDash (s : String) : List String :=
  (splitOnChar '-' s.data).map String.mk

/-- Python `<` on strings: lexicographic on code points. -/
def strLt (a b : String) : Bool :=
  go a.data b.data
where
  go : List Char → List Char → Bool
    | [], [] => false
    | [], _ :: _ => true
    | _ :: _, [] => false
    | x :: xs, y :: ys =>
      if x.toNat < y.toNat then true
      else if y.toNat < x.toNat then false
      else go xs ys

/-- Insert into an ascendingly sorted list (stable). -/
def insertStr (x : String) : List String → List String
  | [] => [x]
  | y :: ys => if strLt y x then y :: insertStr x ys else x :: y :: ys

/-- Python `sorted()` on a list of strings: stable ascending sort by
code points (modelled as insertion sort, which is extensionally the
same on strings since equal keys are identical). -/
def sortStrings (l : List String) : List String :=
  l.foldr insertStr []

/-- Model of CPython `int(s)` for base-10 ASCII strings: strip
surrounding whitespace, optional single sign, then a nonempty digit
string; anything else raises (here: `none`).  (Exotic inputs —
underscore separators, non-ASCII decimal digits — are not modelled; no
claim evaluates the parser there.) -/
def pyInt (s : String) : Option Int :=
  let t := pyStrip s.data
  let core : List Char × Bool :=
    match t with
    | '-' :: rest => (rest, true)
    | '+' :: rest => (rest, false)
    | rest => (rest, false)
  if core.1 ≠ [] ∧ core.1.all Char.isDigit then
    let mag : Nat := core.1.foldl (fun acc c => 10 * acc + (c.toNat - 48)) 0
    some (if core.2 then -(mag : Int) else (mag : Int))
  else
    none

/-! ## Utility functions from `app.py` -/

/-- `backoff(attempt) = min(30, 2 ** attempt) + 0.05 * attempt`,
over exact rationals (Python computes `min` over ints and adds a float;
all values involved are exactly representable). -/
def backoff (attempt : Nat) : ℚ :=
  min 30 ((2 : ℚ) ^ attempt) + (1 / 20) * (attempt : ℚ)

/-- `normalize_symbol`: `symbol.strip().upper()` for a string, `""` for
`None` (modelled by `Option String`). -/
def normalize_symbol (symbol : Option String) : String :=
  match symbol with
  | some s => pyUpper (String.mk (pyStrip s.data))
  | none => ""

/-- `system_symbol_from_waypoint`: split the normalized symbol on `"-"`;
if at least two parts, join the first two with `"-"`, else `""`. -/
def system_symbol_from_waypoint (symbol : Option String) : String :=
  let parts := pySplitDash (normalize_symbol symbol)
  if parts.length ≥ 2 then
    String.intercalate "-" (parts.take 2)
  else
    ""

/-! ## Rate & Retry Governor -/

/-- `STClient._respect_rate`: read the two rate-limit headers (each
`Option String`, absent headers defaulting to `"1"` via
`headers.get(..., "1")`), parse both as ints; if either parse raises,
the exception is swallowed and no sleep happens.  If `remaining <= 1`,
call `time.sleep(reset + 0.25)`.  The result is the duration passed to
`time.sleep`, or `none` when no sleep call is made. -/
def respectRate (remainingHeader resetHeader : Option String) : Option ℚ :=
  match pyInt (remainingHeader.getD "1") with
  | none => none
  | some remaining =>
    match pyInt (resetHeader.getD "1") with
    | none => none
    | some reset =>
      if remaining ≤ 1 then some ((reset : ℚ) + 1 / 4) else none

/-- Abstract parsed JSON payload (the contents are irrelevant to the
claims; only identity matters). -/
abbrev Json := String

/-- The error detail attached to a `RuntimeError`: `r.json()` when the
body parses, else the `{"error": str(e)}` fallback. -/
inductive Detail where
  | parsed (j : Json)
  | fallbackErr
  deriving DecidableEq, Repr

/-- The data carried by the `RuntimeError(f"HTTP {status} {method}
{path}: {detail}")` raised by `STClient.request`, plus a separate
constructor for a JSON-decode failure on a 2xx body (a
non-`HTTPError` exception that propagates as-is). -/
inductive ReqError where
  | http (status : Nat) (method : String) (path : String) (detail : Detail)
  | decodeFailure
  deriving DecidableEq, Repr

/-- One HTTP response as seen by `STClient.request`: status code, the
two rate-limit headers, and the parsed JSON body (`none` when
`r.json()` would raise). -/
structure HttpResp where
  status : Nat
  remainingHeader : Option String
  resetHeader : Option String
  body : Option Json
  deriving Repr

/-- The retryable status set `(429, 500, 502, 503, 504)`. -/
def retryableB (status : Nat) : Bool :=
  status == 429 || status == 500 || status == 502 || status == 503 || status == 504

/-- `requests.Response.raise_for_status` raises `HTTPError` exactly for
status codes in 400..599. -/
def raisesForStatus (status : Nat) : Bool :=
  400 ≤ status && status < 600

/-- `detail` as computed in the `except requests.HTTPError` handler. -/
def detailOf (r : HttpResp) : Detail :=
  match r.body with
  | some j => .parsed j
  | none => .fallbackErr

/-- Observable outcome of one `STClient.request` call: how many network
requests were issued, the sleep durations requested (rate-governor
throttles and retry backoffs, in order), and the final result. -/
structure ReqTrace where
  calls : Nat
  sleeps : List ℚ
  result : Except ReqError Json
  deriving Repr

/-- The body of `STClient.request`'s `while True` loop.  `responses i`
is the response to the `i`-th network call (0-based); `attempt` is the
Python `attempt` counter.  `fuel` bounds the recursion: each recursive
call increments `attempt`, and the loop continues only while
`attempt ≤ retries`, so `retries + 1` fuel suffices (the fuel-0 value is
never reached from `requestModel`). -/
def requestGo (responses : Nat → HttpResp) (method path : String) (retries : Nat) :
    Nat → Nat → Nat → List ℚ → ReqTrace
  | 0, calls, _, sleeps => ⟨calls, sleeps, .error .decodeFailure⟩
  | fuel + 1, calls, attempt, sleeps =>
    let r := responses calls
    let sleeps1 := sleeps ++ (respectRate r.remainingHeader r.resetHeader).toList
    if retryableB r.status then
      let attempt1 := attempt + 1
      if attempt1 > retries then
        ⟨calls + 1, sleeps1, .error (.http r.status method path (detailOf r))⟩
      else
        requestGo responses method path retries fuel (calls + 1) attempt1
          (sleeps1 ++ [backoff attempt1])
    else if raisesForStatus r.status then
      ⟨calls + 1, sleeps1, .error (.http r.status method path (detailOf r))⟩
    else
      match r.body with
      | some j => ⟨calls + 1, sleeps1, .ok j⟩
      | none => ⟨calls + 1, sleeps1, .error .decodeFailure⟩

/-- `STClient.request(method, path, retries=4)` against a response
oracle. -/
def requestModel (responses : Nat → HttpResp) (method path : String)
    (retries : Nat := 4) : ReqTrace :=
  requestGo responses method path retries (retries + 1) 0 0 []

/-! ## Waypoint-keyed read accessors (`api_market`, `api_shipyard`)

Both derive the system symbol and raise
`RuntimeError(f"Unable to determine system for waypoint {...}")` before
touching the network when the derivation is empty.  The network is an
oracle from the request path to a payload; the first component of the
result counts the network calls issued. -/

/-- `api_market(token, waypoint_symbol)`. -/
def api_market (net : String → Json) (waypoint_symbol : String) :
    Nat × Except String Json :=
  let sys_sym := system_symbol_from_waypoint (some waypoint_symbol)
  if sys_sym = "" then
    (0, .error ("Unable to determine system for waypoint " ++ waypoint_symbol))
  else
    (1, .ok (net ("/systems/" ++ sys_sym ++ "/waypoints/" ++ waypoint_symbol ++ "/market")))

/-- `api_shipyard(token, waypoint_symbol)`. -/
def api_shipyard (net : String → Json) (waypoint_symbol : String) :
    Nat × Except String Json :=
  let sys_sym := system_symbol_from_waypoint (some waypoint_symbol)
  if sys_sym = "" then
    (0, .error ("Unable to determine system for waypoint " ++ waypoint_symbol))
  else
    (1, .ok (net ("/systems/" ++ sys_sym ++ "/waypoints/" ++ waypoint_symbol ++ "/shipyard")))

/-! ## Navigate accessor (`api_nav`) -/

/-- The two request-body shapes `api_nav` can post. -/
inductive NavBody where
  | direct (waypointSymbol : String)
  | course (destination : String)
  deriving DecidableEq, Repr

/-- Errors out of `api_nav`: the local `ValueError` precondition
failure, or a propagated `RuntimeError` message string. -/
inductive NavError where
  | valueError (msg : String)
  | runtime (msg : String)
  deriving DecidableEq, Repr

/-- An ASCII single-quote character as a string. -/
def squote : String := String.mk [Char.ofNat 39]

/-- The three hint substrings `("'course'", '"course"',
"course.destination")` checked by `api_nav`'s `except RuntimeError`
handler against `str(err)`. -/
def courseHints : List String :=
  [squote ++ "course" ++ squote, "\"course\"", "course.destination"]

/-- `any(hint in message for hint in (...))`. -/
def mentionsCourse (message : String) : Bool :=
  courseHints.any (fun hint => strContainsSub message hint)

/-- `api_nav(token, ship, wp)` against a transport oracle `post` that
maps a request body to the call's outcome (`Except` message = the
stringified `RuntimeError`).  Returns the list of bodies actually
posted, in order, together with the final outcome. -/
def api_nav (post : NavBody → Except String Json) (wp : Option String) :
    List NavBody × Except NavError Json :=
  let waypoint := normalize_symbol wp
  if waypoint = "" then
    ([], .error (.valueError "Waypoint symbol is required for navigation."))
  else
    match post (.direct waypoint) with
    | .ok j => ([.direct waypoint], .ok j)
    | .error message =>
      if mentionsCourse message then
        match post (.course waypoint) with
        | .ok j => ([.direct waypoint, .course waypoint], .ok j)
        | .error m2 => ([.direct waypoint, .course waypoint], .error (.runtime m2))
      else
        ([.direct waypoint], .error (.runtime message))

/-! ## Pagination aggregator (`fetch_system_waypoints`) -/

/-- One page response as consumed by `fetch_system_waypoints`:
`notDict` models a non-dict `resp` (then `data = []` and `meta = {}`);
`page` carries `resp["data"]` and the optional `meta["totalPages"]`. -/
inductive PageResp (α : Type) where
  | notDict
  | page (data : List α) (totalPages : Option Nat)

/-- `data` of a response (`resp.get("data", []) if isinstance(resp, dict) else []`). -/
def PageResp.items {α : Type} : PageResp α → List α
  | .notDict => []
  | .page d _ => d

/-- The `while page <= max_pages and page <= total_pages` loop.
`fetch p` is the response to the request for page `p`.  Fuel
`max_pages + 1 - page` bounds the iterations exactly. -/
def fetchGo {α : Type} (fetch : Nat → PageResp α) (max_pages : Nat) :
    Nat → Nat → Nat → List α
  | 0, _, _ => []
  | fuel + 1, pageNo, total_pages =>
    if pageNo ≤ max_pages ∧ pageNo ≤ total_pages then
      match fetch pageNo with
      | .notDict => []
      | .page data meta =>
        let total1 := max total_pages (meta.getD total_pages)
        if data.isEmpty then data
        else data ++ fetchGo fetch max_pages fuel (pageNo + 1) total1
    else []

/-- `fetch_system_waypoints(token, system_symbol, max_pages=5)`:
starts at `page = 1`, `total_pages = 1`. -/
def fetch_system_waypoints {α : Type} (fetch : Nat → PageResp α)
    (max_pages : Nat := 5) : List α :=
  fetchGo fetch max_pages max_pages 1 1

/-- Trace variant of `fetchGo`: the per-page `data` lists of the
responses processed, in order of receipt (used to state that the
aggregator only concatenates pages and never reorders items). -/
def fetchGoPages {α : Type} (fetch : Nat → PageResp α) (max_pages : Nat) :
    Nat → Nat → Nat → List (List α)
  | 0, _, _ => []
  | fuel + 1, pageNo, total_pages =>
    if pageNo ≤ max_pages ∧ pageNo ≤ total_pages then
      match fetch pageNo with
      | .notDict => [[]]
      | .page data meta =>
        let total1 := max total_pages (meta.getD total_pages)
        if data.isEmpty then [data]
        else data :: fetchGoPages fetch max_pages fuel (pageNo + 1) total1
    else []

/-- Pages processed by `fetch_system_waypoints`. -/
def fetchedPages {α : Type} (fetch : Nat → PageResp α) (max_pages : Nat := 5) :
    List (List α) :=
  fetchGoPages fetch max_pages max_pages 1 1

/-! ## Logistics summarizer (`logistic_summary`) -/

/-- One element of a waypoint's `"traits"` list: a dict (with optional
`"symbol"` entry), a plain string, or anything else (skipped). -/
inductive TraitJson where
  | tdict (symbol : Option String)
  | tstr (s : String)
  | tother
  deriving DecidableEq, Repr

/-- A waypoint record as consumed by `logistic_summary`: the `"symbol"`,
`"type"` and `"traits"` entries (each possibly absent).  The `x`/`y`
coordinates are consumed only by the floating-point
`waypoint_distance`, which is abstracted as a parameter below. -/
structure WaypointJson where
  symbol : Option String
  type : Option String
  traits : List TraitJson
  deriving DecidableEq, Repr

/-- `traits_for(wp)`: collect `t["symbol"]` for dict traits whose
`"symbol"` is truthy (a nonempty string), and plain-string traits
as-is; anything else is skipped. -/
def traits_for (wp : WaypointJson) : List String :=
  wp.traits.foldr
    (fun t acc =>
      match t with
      | .tdict (some s) => if s ≠ "" then s :: acc else acc
      | .tdict none => acc
      | .tstr s => s :: acc
      | .tother => acc)
    []

/-- The entry dict produced by `build_entry`. -/
structure Entry where
  symbol : Option String
  type : Option String
  distance : Option ℚ
  traits : String
  deriving DecidableEq, Repr

/-- The distance computation `round(waypoint_distance(current_wp, wp), 1)`
is floating point (`math.hypot` + float rounding) and is abstracted as
an explicit parameter of this type; no claim depends on its values. -/
abbrev DistFn := Option WaypointJson → WaypointJson → Option ℚ

/-- `symbol_map.get(current_symbol) if current_symbol else None`:
`symbol_map` is a dict comprehension over waypoints with truthy
symbols, so later duplicates overwrite earlier ones (last match wins). -/
def currentWp (waypoints : List WaypointJson) (current_symbol : Option String) :
    Option WaypointJson :=
  match current_symbol with
  | none => none
  | some s =>
    if s = "" then none
    else
      (waypoints.filter
        (fun w =>
          match w.symbol with
          | some ws => ws ≠ "" ∧ ws = s
          | none => False)).getLast?

/-- `build_entry(wp)` (distance abstracted via `dist`). -/
def build_entry (dist : DistFn) (current_wp : Option WaypointJson)
    (wp : WaypointJson) : Entry :=
  let joined := String.intercalate ", " (sortStrings (traits_for wp))
  { symbol := wp.symbol
    type := wp.type
    distance := dist current_wp wp
    traits := if joined = "" then "—" else joined }

/-- The fixed deposit-trait vocabulary of the mining classification. -/
def depositTraits : List String :=
  ["COMMON_METAL_DEPOSITS", "RARE_METAL_DEPOSITS",
   "PRECIOUS_METAL_DEPOSITS", "MINERAL_DEPOSITS", "ASTEROID_FIELD"]

/-- The mining test of `logistic_summary`:
`any(keyword in t for keyword in ("ASTEROID", "MINING")) or
wp_traits.intersection({...deposit traits...})` where
`t = (wp.get("type") or "").upper()` and `wp_traits` is the set of
uppercased traits. -/
def miningCond (wp : WaypointJson) : Bool :=
  let t := pyUpper (wp.type.getD "")
  (strContainsSub t "ASTEROID" || strContainsSub t "MINING")
    || (traits_for wp).any (fun tr => depositTraits.contains (pyUpper tr))

/-- `name in wp_traits` for the uppercased trait set. -/
def hasTraitUpper (name : String) (wp : WaypointJson) : Bool :=
  (traits_for wp).any (fun tr => pyUpper tr = name)

/-- `logistic_summary(waypoints, current_symbol)`: the returned dict,
modelled as the association list of its four key/value pairs in
insertion order. -/
def logistic_summary (dist : DistFn) (waypoints : List WaypointJson)
    (current_symbol : Option String := none) : List (String × List Entry) :=
  let current_wp := currentWp waypoints current_symbol
  let be := build_entry dist current_wp
  [("Mining sites", (waypoints.filter miningCond).map be),
   ("Markets & delivery", (waypoints.filter (hasTraitUpper "MARKETPLACE")).map be),
   ("Warehouses", (waypoints.filter (hasTraitUpper "WAREHOUSE")).map be),
   ("Shipyards", (waypoints.filter (hasTraitUpper "SHIPYARD")).map be)]

/-! ## Streamlit button handlers for the command accessors

Each handler is modelled as a function from the outcome of its command
accessor call to the ordered list of UI/state effects it performs
afterwards (`st.toast`, `st.cache_data.clear()`, `trigger_rerun()`,
`st.session_state` updates, `st.info`, `st.error`). -/

/-- An observable effect performed by a button handler. -/
inductive Effect where
  | toastOk
  | toastWarn
  | toastErr
  | cacheClear
  | rerun
  | sessionSet
  | showInfo
  | errorBox
  deriving DecidableEq, Repr

/-- Orbit button: `api_orbit` then toast, `st.cache_data.clear()`,
rerun; on exception only `toast_err`. -/
def orbitHandler : Except String Json → List Effect
  | .ok _ => [.toastOk, .cacheClear, .rerun]
  | .error _ => [.toastErr]

/-- Dock button. -/
def dockHandler : Except String Json → List Effect
  | .ok _ => [.toastOk, .cacheClear, .rerun]
  | .error _ => [.toastErr]

/-- Refuel button. -/
def refuelHandler : Except String Json → List Effect
  | .ok _ => [.toastOk, .cacheClear, .rerun]
  | .error _ => [.toastErr]

/-- Extract button: on failure it also shows the cooldown hint via
`st.info`. -/
def extractHandler : Except String Json → List Effect
  | .ok _ => [.toastOk, .cacheClear, .rerun]
  | .error _ => [.toastErr, .showInfo]

/-- Survey button: on success the returned surveys are appended to
`st.session_state["surveys"]` (or a warning toast is shown when none
came back); the handler never calls `st.cache_data.clear()` and never
reruns. -/
def surveyHandler : Except String (List Json) → List Effect
  | .ok surveys => if surveys.isEmpty then [.toastWarn] else [.sessionSet, .toastOk]
  | .error _ => [.toastErr]

/-- Navigate button (after the nonempty-destination precheck passed and
`api_nav` was called). -/
def navigateHandler : Except String Json → List Effect
  | .ok _ => [.toastOk, .cacheClear, .rerun]
  | .error _ => [.toastErr]

/-- Sell button. -/
def sellHandler : Except String Json → List Effect
  | .ok _ => [.toastOk, .cacheClear, .rerun]
  | .error _ => [.toastErr]

/-- Buy button. -/
def buyHandler : Except String Json → List Effect
  | .ok _ => [.toastOk, .cacheClear, .rerun]
  | .error _ => [.toastErr]

/-- Jettison button. -/
def jettisonHandler : Except String Json → List Effect
  | .ok _ => [.toastOk, .cacheClear, .rerun]
  | .error _ => [.toastErr]

/-- Deliver button (contracts tab). -/
def deliverHandler : Except String Json → List Effect
  | .ok _ => [.toastOk, .cacheClear, .rerun]
  | .error _ => [.toastErr]

/-- Accept-contract button. -/
def acceptContractHandler : Except String Json → List Effect
  | .ok _ => [.toastOk, .cacheClear, .rerun]
  | .error _ => [.toastErr]

/-- Purchase-ship button: the failure branch shows `st.error` and
`toast_err`. -/
def purchaseShipHandler : Except String Json → List Effect
  | .ok _ => [.toastOk, .cacheClear, .rerun]
  | .error _ => [.errorBox, .toastErr]

/-- Repair button (maintenance tab). -/
def repairHandler : Except String Json → List Effect
  | .ok _ => [.toastOk, .cacheClear, .rerun]
  | .error _ => [.toastErr]

/-- Scrap button (after the confirmation checkbox). -/
def scrapHandler : Except String Json → List Effect
  | .ok _ => [.toastOk, .cacheClear, .rerun]
  | .error _ => [.toastErr]

/-- Transfer-cargo button. -/
def transferCargoHandler : Except String Json → List Effect
  | .ok _ => [.toastOk, .cacheClear, .rerun]
  | .error _ => [.toastErr]

/-! ## Theorems -/

/-- C9: the retry backoff `min(30, 2^attempt) + 0.05·attempt` is
non-decreasing in the attempt number, its exponential part is capped at
30 seconds plus the linear 0.05-per-attempt jitter, `backoff 1 ≤ 2.05`
and `backoff 10 = 30.5`. -/
theorem backoff_monotone_capped :
    (∀ a b : Nat, a ≤ b → backoff a ≤ backoff b) ∧
    (∀ n : Nat, backoff n ≤ 30 + (1 / 20) * (n : ℚ)) ∧
    backoff 1 ≤ 41 / 20 ∧ backoff 10 = 61 / 2 := by
  refine ⟨?_, ?_, ?_, ?_⟩
  · intro a b hab
    unfold backoff
    have h1 : (2 : ℚ) ^ a ≤ 2 ^ b := pow_le_pow_right₀ one_le_two hab
    have h2 : min (30 : ℚ) (2 ^ a) ≤ min 30 (2 ^ b) := min_le_min le_rfl h1
    have h3 : ((a : ℚ)) ≤ (b : ℚ) := by exact_mod_cast hab
    have h4 : (1 / 20 : ℚ) * a ≤ (1 / 20) * b := by
      apply mul_le_mul_of_nonneg_left h3
      norm_num
    linarith
  · intro n
    unfold backoff
    have := min_le_left (30 : ℚ) (2 ^ n)
    linarith
  · norm_num [backoff]
  · norm_num [backoff]

/-- Witness for the backoff monotonicity hypothesis at `2 ≤ 3`. -/
theorem backoff_monotone_capped_witness : backoff 2 ≤ backoff 3 :=
  backoff_monotone_capped.1 2 3 (by norm_num)

/-- C4: the derived system symbol joins the first two dash-delimited
segments of the normalized waypoint symbol (`"X1-ABC-DEF"` →
`"X1-ABC"`); with fewer than two segments the derivation is empty, and
then `api_market`/`api_shipyard` fail with the validation error while
issuing zero network calls (and with two or more segments they issue
exactly one). -/
theorem system_derivation_and_validation :
    (∀ s : Option String,
       (2 ≤ (pySplitDash (normalize_symbol s)).length →
         system_symbol_from_waypoint s =
           String.intercalate "-" ((pySplitDash (normalize_symbol s)).take 2)) ∧
       ((pySplitDash (normalize_symbol s)).length < 2 →
         system_symbol_from_waypoint s = "")) ∧
    system_symbol_from_waypoint (some "X1-ABC-DEF") = "X1-ABC" ∧
    (∀ (net : String → Json) (w : String),
       (pySplitDash (normalize_symbol (some w))).length < 2 →
       api_market net w =
         (0, .error ("Unable to determine system for waypoint " ++ w)) ∧
       api_shipyard net w =
         (0, .error ("Unable to determine system for waypoint " ++ w))) ∧
    (∀ (net : String → Json) (w : String),
       2 ≤ (pySplitDash (normalize_symbol (some w))).length →
       (api_market net w).1 = 1 ∧ (api_shipyard net w).1 = 1) := by
  have hne : ∀ s : Option String,
      2 ≤ (pySplitDash (normalize_symbol s)).length →
      system_symbol_from_waypoint s ≠ "" := by
    intro s h2
    unfold system_symbol_from_waypoint
    rw [if_pos h2]
    rcases hp : pySplitDash (normalize_symbol s) with _ | ⟨p0, _ | ⟨p1, rest⟩⟩
    · rw [hp] at h2; simp at h2
    · rw [hp] at h2; simp at h2
    · show String.intercalate "-" (List.take 2 (p0 :: p1 :: rest)) ≠ ""
      have hjoin : String.intercalate "-" (List.take 2 (p0 :: p1 :: rest)) =
          p0 ++ "-" ++ p1 := rfl
      rw [hjoin]
      intro hcontra
      have hlen : (p0 ++ "-" ++ p1).length = p0.length + 1 + p1.length := by
        simp [String.length_append]
        rfl
      rw [hcontra, show String.length "" = 0 from rfl] at hlen
      omega
  refine ⟨?_, by decide, ?_, ?_⟩
  · intro s
    constructor
    · intro h2
      unfold system_symbol_from_waypoint
      rw [if_pos h2]
    · intro hlt
      unfold system_symbol_from_waypoint
      rw [if_neg (by omega)]
  · intro net w hlt
    have hz : system_symbol_from_waypoint (some w) = "" := by
      unfold system_symbol_from_waypoint
      rw [if_neg (by omega)]
    constructor
    · unfold api_market
      rw [hz]
      simp
    · unfold api_shipyard
      rw [hz]
      simp
  · intro net w h2
    have := hne (some w) h2
    constructor
    · unfold api_market
      rw [if_neg this]
    · unfold api_shipyard
      rw [if_neg this]

/-- Witness for the derivation/validation theorem at concrete inputs:
`"FOO"` has a single segment, so the derivation is empty and the market
accessor fails without a network call; `"X1-ABC-DEF"` has three, so the
accessor issues one call. -/
theorem system_derivation_and_validation_witness :
    ((pySplitDash (normalize_symbol (some "FOO"))).length < 2 ∧
      api_market (fun _ => "resp") "FOO" =
        (0, .error "Unable to determine system for waypoint FOO")) ∧
    (2 ≤ (pySplitDash (normalize_symbol (some "X1-ABC-DEF"))).length ∧
      (api_market (fun _ => "resp") "X1-ABC-DEF").1 = 1) :=
  ⟨⟨by decide,
    by
      have h := (system_derivation_and_validation.2.2.1 (fun _ => "resp") "FOO"
        (by decide)).1
      simpa using h⟩,
   ⟨by decide,
    (system_derivation_and_validation.2.2.2 (fun _ => "resp") "X1-ABC-DEF"
      (by decide)).1⟩⟩

/-- C2 counterexample: with both rate-limit headers absent, the
governor does NOT skip throttling — `headers.get(..., "1")` substitutes
`"1"` for each, both parse, `remaining = 1 ≤ 1`, and a sleep of
`1 + 0.25` seconds is performed.  This falsifies the claim that absent
headers lead to no throttling sleep. -/
theorem respectRate_absent_headers_sleep :
    respectRate none none = some (5 / 4) ∧ respectRate none none ≠ none := by
  have h1 : pyInt "1" = some 1 := by decide
  constructor
  · simp only [respectRate, Option.getD_none, h1]
    norm_num
  · simp only [respectRate, Option.getD_none, h1]
    norm_num
    exact Option.some_ne_none _

/-- C2 (amended): a rate-limit header value that fails to parse as an
integer makes the governor skip throttling entirely (the exception is
swallowed), and a good response is never aborted because of its
headers: a single 200 response with any header junk still returns its
body with one network call.  Absent headers, by contrast, default to
`"1"` and do trigger a `1.25 s` sleep. -/
theorem header_parse_failure_skips_throttle :
    (∀ rh sh : Option String, pyInt (rh.getD "1") = none →
       respectRate rh sh = none) ∧
    (∀ rh sh : Option String, pyInt (sh.getD "1") = none →
       respectRate rh sh = none) ∧
    (∀ (rh sh : Option String) (j : Json) (m p : String) (retries : Nat),
       (requestModel (fun _ => ⟨200, rh, sh, some j⟩) m p retries).result = .ok j ∧
       (requestModel (fun _ => ⟨200, rh, sh, some j⟩) m p retries).calls = 1) ∧
    respectRate none none = some (5 / 4) := by
  refine ⟨?_, ?_, ?_, ?_⟩
  · intro rh sh hfail
    simp [respectRate, hfail]
  · intro rh sh hfail
    cases hrem : pyInt (rh.getD "1") with
    | none => simp [respectRate, hrem]
    | some v => simp [respectRate, hrem, hfail]
  · intro rh sh j m p retries
    constructor <;>
      simp [requestModel, requestGo, retryableB, raisesForStatus]
  · have h1 : pyInt "1" = some 1 := by decide
    simp only [respectRate, Option.getD_none, h1]
    norm_num

/-- Witness for the parse-failure hypotheses at the concrete
unparsable header value `"abc"`. -/
theorem header_parse_failure_skips_throttle_witness :
    respectRate (some "abc") (some "2") = none ∧
    respectRate (some "2") (some "abc") = none :=
  ⟨header_parse_failure_skips_throttle.1 (some "abc") (some "2") (by decide),
   header_parse_failure_skips_throttle.2.1 (some "2") (some "abc") (by decide)⟩

/-- C8: whenever the remaining-quota header parses to a value `≤ 1` and
the reset-delay header parses to `r`, the governor passes
`r + 0.25` seconds to `time.sleep`; in `STClient.request` this
pre-emptive throttle happens on every response, in particular a 2xx
success still returns its payload after sleeping `r + 0.25`. -/
theorem preemptive_throttle_on_low_quota :
    ∀ (rh sh : Option String) (rem r : Int),
      pyInt (rh.getD "1") = some rem → rem ≤ 1 →
      pyInt (sh.getD "1") = some r →
      respectRate rh sh = some ((r : ℚ) + 1 / 4) ∧
      ∀ (j : Json) (m p : String) (retries : Nat),
        (requestModel (fun _ => ⟨200, rh, sh, some j⟩) m p retries).sleeps =
          [(r : ℚ) + 1 / 4] ∧
        (requestModel (fun _ => ⟨200, rh, sh, some j⟩) m p retries).result = .ok j := by
  intro rh sh rem r hrem hle hres
  have hrr : respectRate rh sh = some ((r : ℚ) + 1 / 4) := by
    simp [respectRate, hrem, hres, hle]
  refine ⟨hrr, ?_⟩
  intro j m p retries
  constructor <;>
    simp [requestModel, requestGo, retryableB, raisesForStatus, hrr]

/-- Witness: the spec's concrete scenario `remaining=1`, `reset=2` on a
200 response — a `2.25 s` sleep and a successful return. -/
theorem preemptive_throttle_on_low_quota_witness :
    respectRate (some "1") (some "2") = some ((2 : ℚ) + 1 / 4) ∧
    (requestModel (fun _ => ⟨200, some "1", some "2", some "payload"⟩)
        "GET" "/my/agent" 4).sleeps = [(2 : ℚ) + 1 / 4] ∧
    (requestModel (fun _ => ⟨200, some "1", some "2", some "payload"⟩)
        "GET" "/my/agent" 4).result = .ok "payload" :=
  ⟨(preemptive_throttle_on_low_quota (some "1") (some "2") 1 2 (by decide)
      (by decide) (by decide)).1,
   (preemptive_throttle_on_low_quota (some "1") (some "2") 1 2 (by decide)
      (by decide) (by decide)).2 "payload" "GET" "/my/agent" 4⟩

/-- Helper: when every response has a retryable status, the retry loop
consumes its whole fuel, making one network call per unit of fuel, and
ends with the `HTTP ...` error built from the last response. -/
theorem requestGo_all_retryable (responses : Nat → HttpResp) (m p : String)
    (retries : Nat) (h : ∀ i, retryableB (responses i).status = true) :
    ∀ fuel, 1 ≤ fuel → ∀ calls attempt sleeps, attempt + fuel = retries + 1 →
      (requestGo responses m p retries fuel calls attempt sleeps).calls =
        calls + fuel ∧
      (requestGo responses m p retries fuel calls attempt sleeps).result =
        .error (.http (responses (calls + fuel - 1)).status m p
          (detailOf (responses (calls + fuel - 1)))) := by
  intro fuel
  induction fuel with
  | zero => intro hcontra; omega
  | succ n ih =>
    intro _ calls attempt sleeps hsum
    rcases Nat.eq_zero_or_pos n with hn | hn
    · subst hn
      have hgt : attempt + 1 > retries := by omega
      constructor <;> simp [requestGo, h calls, hgt]
    · have hle : ¬ attempt + 1 > retries := by omega
      have hrec := ih hn (calls + 1) (attempt + 1)
        ((sleeps ++ (respectRate (responses calls).remainingHeader
            (responses calls).resetHeader).toList) ++ [backoff (attempt + 1)])
        (by omega)
      have hidx : calls + 1 + n - 1 = calls + (n + 1) - 1 := by omega
      have hcalls : calls + 1 + n = calls + (n + 1) := by omega
      rw [hidx, hcalls] at hrec
      refine ⟨?_, ?_⟩
      · simpa [requestGo, h calls, hle] using hrec.1
      · simpa [requestGo, h calls, hle] using hrec.2

/-- C3 counterexample: a response with status 304 — a non-2xx status
outside the retryable set — does not fail at all: `raise_for_status`
raises only for 400..599, so `STClient.request` returns the parsed
body as a success after a single attempt.  This falsifies the claim
that any non-2xx status outside the retryable set fails immediately. -/
theorem non2xx_not_always_failure :
    retryableB 304 = false ∧ (304 < 200 ∨ 300 ≤ 304) ∧
    (requestModel (fun _ => ⟨304, none, none, some "cached-body"⟩)
        "GET" "/my/agent" 4).result = .ok "cached-body" ∧
    (requestModel (fun _ => ⟨304, none, none, some "cached-body"⟩)
        "GET" "/my/agent" 4).calls = 1 := by
  refine ⟨by decide, by omega, ?_, ?_⟩ <;>
    simp [requestModel, requestGo, retryableB, raisesForStatus]

/-- C3 (amended): with a retry budget of `retries`, a request whose
every response has a retryable status (429/500/502/503/504) makes
exactly `retries + 1` total attempts (5 for the default budget 4) and
fails with the `RuntimeError` carrying the HTTP status, method, path
and parsed detail of the last response; a 4xx/5xx status outside the
retryable set fails immediately with a single attempt and the same
error data; a non-2xx status outside 400..599 (e.g. 304) is instead
returned as a success. -/
theorem retry_budget_exhaustion :
    (∀ (responses : Nat → HttpResp) (m p : String) (retries : Nat),
       (∀ i, retryableB (responses i).status = true) →
       (requestModel responses m p retries).calls = retries + 1 ∧
       (requestModel responses m p retries).result =
         .error (.http (responses retries).status m p
           (detailOf (responses retries)))) ∧
    (∀ (responses : Nat → HttpResp) (m p : String) (retries : Nat),
       retryableB (responses 0).status = false →
       raisesForStatus (responses 0).status = true →
       (requestModel responses m p retries).calls = 1 ∧
       (requestModel responses m p retries).result =
         .error (.http (responses 0).status m p (detailOf (responses 0)))) ∧
    (∀ (responses : Nat → HttpResp) (m p : String) (retries : Nat) (j : Json),
       retryableB (responses 0).status = false →
       raisesForStatus (responses 0).status = false →
       (responses 0).body = some j →
       (requestModel responses m p retries).calls = 1 ∧
       (requestModel responses m p retries).result = .ok j) := by
  refine ⟨?_, ?_, ?_⟩
  · intro responses m p retries h
    have := requestGo_all_retryable responses m p retries h (retries + 1)
      (by omega) 0 0 [] (by omega)
    simpa [requestModel] using this
  · intro responses m p retries hretry hraise
    constructor <;> simp [requestModel, requestGo, hretry, hraise]
  · intro responses m p retries j hretry hraise hbody
    constructor <;> simp [requestModel, requestGo, hretry, hraise, hbody]

/-- Witness: five straight 503s against the default budget of 4 — five
attempts then the HTTP 503 error; and a single 404 fails on the first
attempt. -/
theorem retry_budget_exhaustion_witness :
    ((requestModel (fun _ => ⟨503, none, none, some "oops"⟩) "GET" "/my/ships" 4).calls = 5 ∧
     (requestModel (fun _ => ⟨503, none, none, some "oops"⟩) "GET" "/my/ships" 4).result =
       .error (.http 503 "GET" "/my/ships" (.parsed "oops"))) ∧
    ((requestModel (fun _ => ⟨404, none, none, some "missing"⟩) "GET" "/my/ships" 4).calls = 1 ∧
     (requestModel (fun _ => ⟨404, none, none, some "missing"⟩) "GET" "/my/ships" 4).result =
       .error (.http 404 "GET" "/my/ships" (.parsed "missing"))) :=
  ⟨retry_budget_exhaustion.1 (fun _ => ⟨503, none, none, some "oops"⟩)
      "GET" "/my/ships" 4 (fun _ => (by decide : retryableB 503 = true)),
   retry_budget_exhaustion.2.1 (fun _ => ⟨404, none, none, some "missing"⟩)
      "GET" "/my/ships" 4 (by decide) (by decide)⟩

/-- C5: `api_nav` first posts the direct `{waypointSymbol}` body; it
posts the course-wrapped `{course: {destination}}` body, exactly once,
if and only if the first attempt fails with a `RuntimeError` whose
message mentions a course/destination field (one of `'course'`,
`"course"`, `course.destination`); any other first-attempt failure is
surfaced unchanged with no second post, and a second-attempt failure is
surfaced unchanged as well. -/
theorem navigate_two_shot_fallback :
    ∀ (post : NavBody → Except String Json) (wp : Option String),
      normalize_symbol wp ≠ "" →
      (∀ j, post (.direct (normalize_symbol wp)) = .ok j →
        api_nav post wp = ([.direct (normalize_symbol wp)], .ok j)) ∧
      (∀ msg, post (.direct (normalize_symbol wp)) = .error msg →
        mentionsCourse msg = false →
        api_nav post wp =
          ([.direct (normalize_symbol wp)], .error (.runtime msg))) ∧
      (∀ msg j, post (.direct (normalize_symbol wp)) = .error msg →
        mentionsCourse msg = true →
        post (.course (normalize_symbol wp)) = .ok j →
        api_nav post wp =
          ([.direct (normalize_symbol wp), .course (normalize_symbol wp)], .ok j)) ∧
      (∀ msg m2, post (.direct (normalize_symbol wp)) = .error msg →
        mentionsCourse msg = true →
        post (.course (normalize_symbol wp)) = .error m2 →
        api_nav post wp =
          ([.direct (normalize_symbol wp), .course (normalize_symbol wp)],
           .error (.runtime m2))) := by
  intro post wp hW
  refine ⟨?_, ?_, ?_, ?_⟩
  · intro j h1
    simp [api_nav, hW, h1]
  · intro msg h1 hm
    simp [api_nav, hW, h1, hm]
  · intro msg j h1 hm h2
    simp [api_nav, hW, h1, hm, h2]
  · intro msg m2 h1 hm h2
    simp [api_nav, hW, h1, hm, h2]

/-- Witness: the spec's mock — the direct body is rejected with an
error mentioning `'course'`, the second attempt uses the course-wrapped
body and succeeds. -/
theorem navigate_two_shot_fallback_witness :
    mentionsCourse ("HTTP 400 POST /my/ships/S/navigate: " ++ squote ++ "course"
      ++ squote ++ " is required") = true ∧
    api_nav
      (fun b =>
        match b with
        | .direct _ => .error ("HTTP 400 POST /my/ships/S/navigate: " ++ squote
            ++ "course" ++ squote ++ " is required")
        | .course _ => .ok "nav-started")
      (some "X1-AB-CD") =
      ([.direct "X1-AB-CD", .course "X1-AB-CD"], .ok "nav-started") :=
  ⟨by decide,
   (navigate_two_shot_fallback
      (fun b =>
        match b with
        | .direct _ => .error ("HTTP 400 POST /my/ships/S/navigate: " ++ squote
            ++ "course" ++ squote ++ " is required")
        | .course _ => .ok "nav-started")
      (some "X1-AB-CD") (by decide)).2.2.1
     ("HTTP 400 POST /my/ships/S/navigate: " ++ squote ++ "course" ++ squote
       ++ " is required")
     "nav-started" rfl (by decide) rfl⟩

/-- C1 counterexample: the Survey button handler, after a successful
`api_survey` call that returned one survey, stores the surveys in
session state and toasts — it never calls `st.cache_data.clear()`, so
the read cache is NOT invalidated by a successful survey command.  This
falsifies the claim for the `survey` entry of its accessor list. -/
theorem survey_handler_no_cache_clear :
    Effect.cacheClear ∉ surveyHandler (.ok ["survey-1"]) ∧
    surveyHandler (.ok ["survey-1"]) = [.sessionSet, .toastOk] := by
  constructor <;> decide

/-- C1 (amended): every command-accessor button handler except the
Survey one clears the read cache (`st.cache_data.clear()`) on a
successful call before control returns — orbit, dock, refuel, navigate,
extract, jettison, sell, buy, deliver, accept-contract, purchase-ship,
repair, scrap, transfer-cargo; the Survey handler instead stores the
returned surveys in session state and never clears the cache (nor
reruns). -/
theorem command_handlers_clear_cache :
    (∀ r : Json, Effect.cacheClear ∈ orbitHandler (.ok r)) ∧
    (∀ r : Json, Effect.cacheClear ∈ dockHandler (.ok r)) ∧
    (∀ r : Json, Effect.cacheClear ∈ refuelHandler (.ok r)) ∧
    (∀ r : Json, Effect.cacheClear ∈ navigateHandler (.ok r)) ∧
    (∀ r : Json, Effect.cacheClear ∈ extractHandler (.ok r)) ∧
    (∀ r : Json, Effect.cacheClear ∈ jettisonHandler (.ok r)) ∧
    (∀ r : Json, Effect.cacheClear ∈ sellHandler (.ok r)) ∧
    (∀ r : Json, Effect.cacheClear ∈ buyHandler (.ok r)) ∧
    (∀ r : Json, Effect.cacheClear ∈ deliverHandler (.ok r)) ∧
    (∀ r : Json, Effect.cacheClear ∈ acceptContractHandler (.ok r)) ∧
    (∀ r : Json, Effect.cacheClear ∈ purchaseShipHandler (.ok r)) ∧
    (∀ r : Json, Effect.cacheClear ∈ repairHandler (.ok r)) ∧
    (∀ r : Json, Effect.cacheClear ∈ scrapHandler (.ok r)) ∧
    (∀ r : Json, Effect.cacheClear ∈ transferCargoHandler (.ok r)) ∧
    (∀ s : List Json, Effect.cacheClear ∉ surveyHandler (.ok s)) ∧
    (∀ s : List Json, Effect.rerun ∉ surveyHandler (.ok s)) := by
  refine ⟨?_, ?_, ?_, ?_, ?_, ?_, ?_, ?_, ?_, ?_, ?_, ?_, ?_, ?_, ?_, ?_⟩
  case _ => intro r; simp [orbitHandler]
  case _ => intro r; simp [dockHandler]
  case _ => intro r; simp [refuelHandler]
  case _ => intro r; simp [navigateHandler]
  case _ => intro r; simp [extractHandler]
  case _ => intro r; simp [jettisonHandler]
  case _ => intro r; simp [sellHandler]
  case _ => intro r; simp [buyHandler]
  case _ => intro r; simp [deliverHandler]
  case _ => intro r; simp [acceptContractHandler]
  case _ => intro r; simp [purchaseShipHandler]
  case _ => intro r; simp [repairHandler]
  case _ => intro r; simp [scrapHandler]
  case _ => intro r; simp [transferCargoHandler]
  case _ =>
    intro s
    cases s <;> simp [surveyHandler]
  case _ =>
    intro s
    cases s <;> simp [surveyHandler]

/-- C10: for every waypoint list and reference symbol (and every
distance function), the logistics summary is exactly the four fixed
categories `Mining sites`, `Markets & delivery`, `Warehouses`,
`Shipyards`, in that order, each bound to a (possibly empty) list — so
every category key can be indexed unconditionally. -/
theorem logistic_summary_fixed_keys :
    ∀ (dist : DistFn) (wps : List WaypointJson) (cur : Option String),
      (logistic_summary dist wps cur).map Prod.fst =
        ["Mining sites", "Markets & delivery", "Warehouses", "Shipyards"] ∧
      ((logistic_summary dist wps cur).lookup "Mining sites").isSome = true ∧
      ((logistic_summary dist wps cur).lookup "Markets & delivery").isSome = true ∧
      ((logistic_summary dist wps cur).lookup "Warehouses").isSome = true ∧
      ((logistic_summary dist wps cur).lookup "Shipyards").isSome = true := by
  intro dist wps cur
  refine ⟨?_, ?_, ?_, ?_, ?_⟩ <;> simp [logistic_summary, List.lookup]

/-- C7: the summarizer classifies a waypoint as a mining site exactly
when its uppercased type contains `"ASTEROID"` or `"MINING"` or its
uppercased trait set meets the fixed deposit-trait vocabulary; the
Markets & delivery / Warehouses / Shipyards categories hold exactly the
waypoints whose trait set contains MARKETPLACE / WAREHOUSE / SHIPYARD;
categories are non-exclusive: the concrete waypoint carrying both
MARKETPLACE and SHIPYARD traits appears in both categories, and a bare
`ASTEROID_FIELD`-type waypoint with no deposit trait is a mining
site. -/
theorem logistics_classification :
    (∀ wp : WaypointJson, miningCond wp = true ↔
       (strContainsSub (pyUpper (wp.type.getD "")) "ASTEROID" = true ∨
        strContainsSub (pyUpper (wp.type.getD "")) "MINING" = true ∨
        ∃ tr ∈ traits_for wp, pyUpper tr ∈ depositTraits)) ∧
    (∀ (wp : WaypointJson) (name : String), hasTraitUpper name wp = true ↔
       ∃ tr ∈ traits_for wp, pyUpper tr = name) ∧
    (∀ (dist : DistFn) (wps : List WaypointJson) (cur : Option String),
       (logistic_summary dist wps cur).lookup "Mining sites" =
         some ((wps.filter miningCond).map
           (build_entry dist (currentWp wps cur))) ∧
       (logistic_summary dist wps cur).lookup "Markets & delivery" =
         some ((wps.filter (hasTraitUpper "MARKETPLACE")).map
           (build_entry dist (currentWp wps cur))) ∧
       (logistic_summary dist wps cur).lookup "Warehouses" =
         some ((wps.filter (hasTraitUpper "WAREHOUSE")).map
           (build_entry dist (currentWp wps cur))) ∧
       (logistic_summary dist wps cur).lookup "Shipyards" =
         some ((wps.filter (hasTraitUpper "SHIPYARD")).map
           (build_entry dist (currentWp wps cur)))) ∧
    miningCond ⟨some "W1", some "ASTEROID_FIELD", []⟩ = true ∧
    (build_entry (fun _ _ => none) none
        ⟨some "W2", some "PLANET",
         [.tdict (some "MARKETPLACE"), .tdict (some "SHIPYARD")]⟩ ∈
      (((logistic_summary (fun _ _ => none)
          [⟨some "W2", some "PLANET",
            [.tdict (some "MARKETPLACE"), .tdict (some "SHIPYARD")]⟩]
          none).lookup "Markets & delivery").getD []) ∧
     build_entry (fun _ _ => none) none
        ⟨some "W2", some "PLANET",
         [.tdict (some "MARKETPLACE"), .tdict (some "SHIPYARD")]⟩ ∈
      (((logistic_summary (fun _ _ => none)
          [⟨some "W2", some "PLANET",
            [.tdict (some "MARKETPLACE"), .tdict (some "SHIPYARD")]⟩]
          none).lookup "Shipyards").getD [])) := by
  refine ⟨?_, ?_, ?_, by decide, by decide, by decide⟩
  · intro wp
    simp [miningCond, List.any_eq_true, List.contains_iff_exists_mem_beq,
      beq_iff_eq, or_assoc]
  · intro wp name
    simp [hasTraitUpper, List.any_eq_true]
  · intro dist wps cur
    refine ⟨?_, ?_, ?_, ?_⟩ <;> simp [logistic_summary, List.lookup]

/-- Helper: the aggregator's output is the page-by-page trace,
concatenated — it never reorders or drops items within the fetched
prefix of pages. -/
theorem fetchGo_eq_join {α : Type} (fetch : Nat → PageResp α) (max_pages : Nat) :
    ∀ fuel pageNo total_pages,
      fetchGo fetch max_pages fuel pageNo total_pages =
        (fetchGoPages fetch max_pages fuel pageNo total_pages).flatten := by
  intro fuel
  induction fuel with
  | zero => intro pageNo total_pages; simp [fetchGo, fetchGoPages]
  | succ n ih =>
    intro pageNo total_pages
    simp only [fetchGo, fetchGoPages]
    by_cases hc : pageNo ≤ max_pages ∧ pageNo ≤ total_pages
    · rw [if_pos hc, if_pos hc]
      cases hf : fetch pageNo with
      | notDict => simp
      | page data meta =>
        by_cases hd : data.isEmpty
        · simp [hd]
        · simp [hd, ih]
    · rw [if_neg hc, if_neg hc]
      simp

/-- C6: the pagination aggregator starts at page 1 and returns the
page-by-page items concatenated in order of receipt (never mutating
item order); it stops after the running-maximum total-page count is
reached, at the page cap, or at the first empty page — shown in
general for the order property and on the spec's mock scenarios for
the stop conditions (3 pages with `totalPages = 3`; an early empty
page; a `totalPages` beyond the cap; a later, smaller `totalPages`
that cannot shrink the running maximum). -/
theorem pagination_aggregator :
    (∀ (α : Type) (fetch : Nat → PageResp α) (max_pages : Nat),
       fetch_system_waypoints fetch max_pages =
         (fetchedPages fetch max_pages).flatten) ∧
    (fetch_system_waypoints
        (fun p => if p ≤ 3 then .page [10 * p + 1, 10 * p + 2] (some 3)
                  else .page [99] (some 3)) 5 =
       [11, 12, 21, 22, 31, 32] ∧
     fetchedPages
        (fun p => if p ≤ 3 then .page [10 * p + 1, 10 * p + 2] (some 3)
                  else .page [99] (some 3)) 5 =
       [[11, 12], [21, 22], [31, 32]]) ∧
    fetch_system_waypoints
        (fun p => if p = 1 then .page [1, 2] (some 3)
                  else .page ([] : List Nat) (some 3)) 5 =
      [1, 2] ∧
    fetch_system_waypoints (fun p => .page [p] (some 10)) 5 =
      [1, 2, 3, 4, 5] ∧
    fetch_system_waypoints
        (fun p => .page [p] (some (if p = 1 then 3 else 1))) 5 =
      [1, 2, 3] := by
  refine ⟨?_, ⟨by decide, by decide⟩, by decide, by decide, by decide⟩
  intro α fetch max_pages
  exact fetchGo_eq_join fetch max_pages max_pages 1 1

end SpaceTraders
